import Mathlib

/-!
Shallow embedding of the two sink connector adapters
(`neumai/SinkConnectors/PineconeSink.py` and
`neumai/SinkConnectors/SupabaseSink.py`).

The third-party client libraries (`pinecone`, `vecs`) are modelled as
abstract backends: records of functions returning `Except String _`, where
the `String` carries the message of the raw error raised by the library.
An operation's outcome is `Except _Failure _`, where a failure is either a
`raw` underlying error that escaped uncaught, or an `exc` domain exception
raised by an `except` handler of the adapter.  Python's mutable `self` is
threaded explicitly: every method returns the post-call configuration
record as its last component; since no method of either source file
assigns a `self` field, each method returns its argument record there.
Calls issued to the backend that the claims talk about are recorded in
traces: the Pinecone `store` returns the list of upsert batches it
dispatched (records with the target namespace), and every Supabase method
returns the list of client events (connect / disconnect / upsert call)
it performed, in order.
-/

/-- Metadata payload attached to a vector; the adapters forward it verbatim
and never inspect it, so it is modelled as an association list. -/
abbrev Metadata : Type := List (String × String)

/-- `neumai.Shared.NeumVector`: id, embedding, metadata. -/
structure NeumVector where
  id : String
  vector : List Float
  metadata : Metadata

/-- `neumai.Shared.NeumSearch.NeumSearchResult`: id, metadata, score. -/
structure NeumSearchResult where
  id : String
  metadata : Metadata
  score : Float

/-- `neumai.Shared.NeumSinkInfo`: count of vectors stored. -/
structure NeumSinkInfo where
  number_vectors_stored : Nat
deriving DecidableEq

/-- The Pinecone domain exceptions imported from `neumai.Shared.Exceptions`,
one kind per operation. -/
inductive PineconeException where
  | connectionException (msg : String)
  | insertionException (msg : String)
  | indexInfoException (msg : String)
  | queryException (msg : String)
deriving DecidableEq

/-- How a Pinecone adapter operation can fail: a `raw` error of the
underlying library escaping uncaught, or a domain exception `exc`. -/
inductive PineconeFailure where
  | raw (msg : String)
  | exc (e : PineconeException)
deriving DecidableEq

/-- The Supabase domain exceptions imported from `neumai.Shared.Exceptions`. -/
inductive SupabaseException where
  | connectionException (msg : String)
  | insertionException (msg : String)
  | indexInfoException (msg : String)
  | queryException (msg : String)
deriving DecidableEq

/-- How a Supabase adapter operation can fail: a `raw` error of the
underlying library escaping uncaught, or a domain exception `exc`. -/
inductive SupabaseFailure where
  | raw (msg : String)
  | exc (e : SupabaseException)
deriving DecidableEq

/-- A record sent to `index.upsert`: the `(vector.id, vector.vector,
vector.metadata)` triple built by both adapters. -/
abbrev UpsertRecord : Type := String × List Float × Metadata

/-- Abstract model of the `pinecone` client library.  Each field is one
backend call the adapter makes; `Except.error msg` models the call raising
an exception with message `msg`.
* `init api_key environment` — `pinecone.init(...)`;
* `upsert index records ns` — `Index(index).upsert(vectors=records,
  namespace=ns)`, returning `result['upserted_count']`;
* `query index vector top_k ns` — `Index(index).query(...)["matches"]`;
* `describe_index_stats index` — `Index(index).describe_index_stats()
  ["namespace"]`, the mapping from namespace to its `vector_count`. -/
structure PineconeBackend where
  init : String → String → Except String Unit
  upsert : String → List UpsertRecord → String → Except String Nat
  query : String → List Float → Nat → String → Except String (List NeumSearchResult)
  describe_index_stats : String → Except String (List (String × Nat))

/-- Configuration of `PineconeSink` (pydantic fields of the class). -/
structure PineconeSink where
  api_key : String
  environment : String
  index : String
  «namespace» : Option String

/-- `PineconeSink.validation`: inside `try`, `pinecone.init` then
`describe_index_stats` on the index; any exception is re-raised as
`PineconeConnectionException`; on success returns `True`.
Final component: `self` after the call (no field is assigned). -/
def PineconeSink.validation (sink : PineconeSink) (bk : PineconeBackend) :
    Except PineconeFailure Bool × PineconeSink :=
  (match (do
      bk.init sink.api_key sink.environment
      _ ← bk.describe_index_stats sink.index
      pure ()) with
   | .error e => .error (.exc (.connectionException
       s!"Pinecone connection couldn't be initialized. See exception: {e}"))
   | .ok _ => .ok true,
   sink)

/-- The `to_upsert` list built from a batch:
`[(vector.id, vector.vector, vector.metadata) for vector in vector_batch]`. -/
def pineconeToUpsert (vector_batch : List NeumVector) : List UpsertRecord :=
  vector_batch.map fun vector => (vector.id, vector.vector, vector.metadata)

/-- The batching loop of `PineconeSink.store`:
`for i in range(0, len(vectors_to_store), 32)` slices `vectors_to_store
[i:min(i+32, len)]`, upserts the batch, and accumulates
`result['upserted_count']`.  Returns the accumulated count (or the first
raw error) together with the list of `(records, namespace)` upsert calls
dispatched, in order. -/
def pineconeStoreLoop (bk : PineconeBackend) (index ns : String)
    (vectors_to_store : List NeumVector) :
    Except String Nat × List (List UpsertRecord × String) :=
  match vectors_to_store with
  | [] => (.ok 0, [])
  | v :: rest =>
    let vector_batch := (v :: rest).take 32
    let to_upsert := pineconeToUpsert vector_batch
    match bk.upsert index to_upsert ns with
    | .error e => (.error e, [(to_upsert, ns)])
    | .ok upserted_count =>
      let out := pineconeStoreLoop bk index ns ((v :: rest).drop 32)
      (match out.1 with
       | .error e => .error e
       | .ok n => .ok (upserted_count + n),
       (to_upsert, ns) :: out.2)
termination_by vectors_to_store.length
decreasing_by simp [List.length_drop]; omega

/-- `PineconeSink.store`: resolve the namespace (default
`pipeline_{pipeline_id}` when the configured one is `None`); inside `try`,
`pinecone.init` then the batching loop; any exception is re-raised as
`PineconeInsertionException`; returns `int(vectors_stored)`.
Middle component: the upsert calls dispatched; last: `self` after. -/
def PineconeSink.store (sink : PineconeSink) (bk : PineconeBackend)
    (pipeline_id : String) (vectors_to_store : List NeumVector) :
    (Except PineconeFailure Nat × List (List UpsertRecord × String)) × PineconeSink :=
  (match sink.«namespace» with
   | none =>
     match bk.init sink.api_key sink.environment with
     | .error e => (.error (.exc (.insertionException
         s!"Failed to store in Pinecone. Exception - {e}")), [])
     | .ok _ =>
       let out := pineconeStoreLoop bk sink.index s!"pipeline_{pipeline_id}" vectors_to_store
       (match out.1 with
        | .error e => .error (.exc (.insertionException
            s!"Failed to store in Pinecone. Exception - {e}"))
        | .ok n => .ok n,
        out.2)
   | some ns =>
     match bk.init sink.api_key sink.environment with
     | .error e => (.error (.exc (.insertionException
         s!"Failed to store in Pinecone. Exception - {e}")), [])
     | .ok _ =>
       let out := pineconeStoreLoop bk sink.index ns vectors_to_store
       (match out.1 with
        | .error e => .error (.exc (.insertionException
            s!"Failed to store in Pinecone. Exception - {e}"))
        | .ok n => .ok n,
        out.2),
   sink)

/-- `PineconeSink.search`: resolve the namespace; inside `try`,
`pinecone.init` then `index.query(...)["matches"]`; any exception is
re-raised as `PineconeQueryException`; after the `try`, the matches are
repackaged as `NeumSearchResult`s in order. -/
def PineconeSink.search (sink : PineconeSink) (bk : PineconeBackend)
    (vector : List Float) (number_of_results : Nat) (pipeline_id : String) :
    Except PineconeFailure (List NeumSearchResult) × PineconeSink :=
  (match sink.«namespace» with
   | none =>
     match (do
         bk.init sink.api_key sink.environment
         bk.query sink.index vector number_of_results s!"pipeline_{pipeline_id}") with
     | .error e => .error (.exc (.queryException
         s!"Failed to query pinecone. Exception - {e}"))
     | .ok results =>
       .ok (results.map fun result =>
         { id := result.id, metadata := result.metadata, score := result.score })
   | some ns =>
     match (do
         bk.init sink.api_key sink.environment
         bk.query sink.index vector number_of_results ns) with
     | .error e => .error (.exc (.queryException
         s!"Failed to query pinecone. Exception - {e}"))
     | .ok results =>
       .ok (results.map fun result =>
         { id := result.id, metadata := result.metadata, score := result.score }),
   sink)

/-- `PineconeSink.info`: resolve the namespace; inside `try`,
`pinecone.init` then `describe_index_stats()["namespace"]`; if the resolved
namespace is a key, `return NeumSinkInfo(namespaces[namespace]
["vector_count"])`; any exception is re-raised as
`PineconeIndexInfoException`.  When the namespace is not a key, control
falls off the end of the function: Python returns `None`, modelled as
`Except.ok none`. -/
def PineconeSink.info (sink : PineconeSink) (bk : PineconeBackend)
    (pipeline_id : String) :
    Except PineconeFailure (Option NeumSinkInfo) × PineconeSink :=
  (match sink.«namespace» with
   | none =>
     match (do
         bk.init sink.api_key sink.environment
         bk.describe_index_stats sink.index) with
     | .error e => .error (.exc (.indexInfoException
         s!"Failed to get info for pinecone. Exception - {e}"))
     | .ok namespaces =>
       match namespaces.lookup s!"pipeline_{pipeline_id}" with
       | some vector_count => .ok (some { number_vectors_stored := vector_count })
       | none => .ok none
   | some ns =>
     match (do
         bk.init sink.api_key sink.environment
         bk.describe_index_stats sink.index) with
     | .error e => .error (.exc (.indexInfoException
         s!"Failed to get info for pinecone. Exception - {e}"))
     | .ok namespaces =>
       match namespaces.lookup ns with
       | some vector_count => .ok (some { number_vectors_stored := vector_count })
       | none => .ok none,
   sink)

/-- A row returned by the `vecs` query call: the adapter reads
`result[0]` (id), `result[1]` (score) and `result[2]` (metadata). -/
abbrev SupabaseRow : Type := String × Float × Metadata

/-- A client event performed by a Supabase adapter operation:
`vecs.create_client` succeeding, `vx.disconnect()`, or an upsert call. -/
inductive SupEvent where
  | connect
  | disconnect
  | upsertCall (records : List UpsertRecord)

/-- Whether an event is a successful `create_client`. -/
def SupEvent.isConnect : SupEvent → Bool
  | .connect => true
  | _ => false

/-- Whether an event is a `disconnect` call. -/
def SupEvent.isDisconnect : SupEvent → Bool
  | .disconnect => true
  | _ => false

/-- Whether an event is an upsert call. -/
def SupEvent.isUpsertCall : SupEvent → Bool
  | .upsertCall _ => true
  | _ => false

/-- Abstract model of the `vecs` client library.
* `create_client conn` — `vecs.create_client(conn)`;
* `get_or_create_collection name dim` — collection handle keyed by name;
* `get_collection name` — fails when the collection does not exist;
* `upsert name records` — `db.upsert(records=...)` on collection `name`;
* `query name vector limit` — `db.query(data=..., limit=...)`;
* `count name` — `db.table.select('count(*)')[0].count`. -/
structure SupabaseBackend where
  create_client : String → Except String Unit
  get_or_create_collection : String → Nat → Except String Unit
  get_collection : String → Except String Unit
  upsert : String → List UpsertRecord → Except String Unit
  query : String → List Float → Nat → Except String (List SupabaseRow)
  count : String → Except String Nat

/-- Configuration of `SupabaseSink` (pydantic fields of the class). -/
structure SupabaseSink where
  database_connection : String
  collection_name : Option String

/-- `SupabaseSink.validation`: inside `try`, `vecs.create_client`; any
exception is re-raised as `SupabaseConnectionException`; on success
returns `True`.  Note: the client created here is never disconnected. -/
def SupabaseSink.validation (sink : SupabaseSink) (bk : SupabaseBackend) :
    (Except SupabaseFailure Bool × List SupEvent) × SupabaseSink :=
  (match bk.create_client sink.database_connection with
   | .error e => (.error (.exc (.connectionException
       s!"Supabase connection couldn't be initialized. See exception: {e}")), [])
   | .ok _ => (.ok true, [.connect]),
   sink)

/-- `SupabaseSink.store`: `vecs.create_client` runs before the `try`, so
its failure escapes raw.  Inside `try`: resolve the collection name
(default `pipeline_{pipeline_id}`), read `len(vectors_to_store[0].vector)`
— on an empty list this raises `IndexError("list index out of range")`,
which the blanket `except Exception` also catches — then
`get_or_create_collection`, build `to_upsert` and issue one `upsert`.  Any
exception in the `try` is re-raised as `SupabaseInsertionException`; the
`finally` disconnects on every path; on success returns
`len(vectors_to_store)`. -/
def SupabaseSink.store (sink : SupabaseSink) (bk : SupabaseBackend)
    (pipeline_id : String) (vectors_to_store : List NeumVector) :
    (Except SupabaseFailure Nat × List SupEvent) × SupabaseSink :=
  (match bk.create_client sink.database_connection with
   | .error e => (.error (.raw e), [])
   | .ok _ =>
     let collection_name := match sink.collection_name with
       | none => s!"pipeline_{pipeline_id}"
       | some n => n
     match vectors_to_store with
     | [] =>
       (.error (.exc (.insertionException
           "Supabase storing failed. Exception list index out of range")),
        [.connect, .disconnect])
     | first :: _ =>
       let dimensions := first.vector.length
       match bk.get_or_create_collection collection_name dimensions with
       | .error e =>
         (.error (.exc (.insertionException
             s!"Supabase storing failed. Exception {e}")),
          [.connect, .disconnect])
       | .ok _ =>
         let to_upsert := vectors_to_store.map fun v => (v.id, v.vector, v.metadata)
         match bk.upsert collection_name to_upsert with
         | .error e =>
           (.error (.exc (.insertionException
               s!"Supabase storing failed. Exception {e}")),
            [.connect, .upsertCall to_upsert, .disconnect])
         | .ok _ =>
           (.ok vectors_to_store.length,
            [.connect, .upsertCall to_upsert, .disconnect]),
   sink)

/-- `SupabaseSink.search`: `vecs.create_client` runs before any `try`, so
its failure escapes raw.  First `try`: `get_collection`; a bare `except`
re-raises `SupabaseQueryException("Collection ... does not exist")`; its
`finally` disconnects (also on success).  Second `try`: the query; failures
re-raised as `SupabaseQueryException`; its `finally` disconnects again.
After both, the rows are repackaged as `NeumSearchResult`s
(`id=str(result[0])`, `metadata=result[2]`, `score=result[1]`). -/
def SupabaseSink.search (sink : SupabaseSink) (bk : SupabaseBackend)
    (vector : List Float) (number_of_results : Nat) (pipeline_id : String) :
    (Except SupabaseFailure (List NeumSearchResult) × List SupEvent) × SupabaseSink :=
  (match bk.create_client sink.database_connection with
   | .error e => (.error (.raw e), [])
   | .ok _ =>
     let collection_name := match sink.collection_name with
       | none => s!"pipeline_{pipeline_id}"
       | some n => n
     match bk.get_collection collection_name with
     | .error _ =>
       (.error (.exc (.queryException
           s!"Collection {collection_name} does not exist")),
        [.connect, .disconnect])
     | .ok _ =>
       match bk.query collection_name vector number_of_results with
       | .error e =>
         (.error (.exc (.queryException
             s!"Error querying vectors from Supabase. Exception: {e}")),
          [.connect, .disconnect, .disconnect])
       | .ok results =>
         (.ok (results.map fun result =>
             { id := result.1, metadata := result.2.2, score := result.2.1 }),
          [.connect, .disconnect, .disconnect]),
   sink)

/-- `SupabaseSink.info`: `vecs.create_client` runs before any `try`, so
its failure escapes raw.  `try`: `get_collection`; a bare `except`
re-raises `SupabaseIndexInfoException("Collection ... does not exist")`;
`finally` disconnects.  The row count
`db.table.select('count(*)')[0].count` is read after the `try`, outside
any handler, so its failure also escapes raw. -/
def SupabaseSink.info (sink : SupabaseSink) (bk : SupabaseBackend)
    (pipeline_id : String) :
    (Except SupabaseFailure NeumSinkInfo × List SupEvent) × SupabaseSink :=
  (match bk.create_client sink.database_connection with
   | .error e => (.error (.raw e), [])
   | .ok _ =>
     let collection_name := match sink.collection_name with
       | none => s!"pipeline_{pipeline_id}"
       | some n => n
     match bk.get_collection collection_name with
     | .error _ =>
       (.error (.exc (.indexInfoException
           s!"Collection {collection_name} does not exist")),
        [.connect, .disconnect])
     | .ok _ =>
       match bk.count collection_name with
       | .error e => (.error (.raw e), [.connect, .disconnect])
       | .ok number_of_vectors =>
         (.ok { number_vectors_stored := number_of_vectors },
          [.connect, .disconnect]),
   sink)

/-- The namespace/collection resolution rule shared by the operations of
both adapters: the line `if name == None: name = f"pipeline_{pipeline_id}"`. -/
def resolveName (configured : Option String) (pipeline_id : String) : String :=
  match configured with
  | none => s!"pipeline_{pipeline_id}"
  | some n => n

/-- The batch decomposition performed by the Pinecone store loop: slices of
at most 32 elements, in input order. -/
def listChunks32 {α : Type} : List α → List (List α)
  | [] => []
  | x :: xs => ((x :: xs).take 32) :: listChunks32 ((x :: xs).drop 32)
termination_by l => l.length
decreasing_by simp [List.length_drop]; omega

/-- The sizes of the batches the Pinecone store loop dispatches for an
input of length `n`: `min 32 n` repeatedly until exhausted. -/
def storeBatchSizes (n : Nat) : List Nat :=
  if n = 0 then [] else min 32 n :: storeBatchSizes (n - 32)
termination_by n
decreasing_by omega

/-- Whether a Pinecone operation outcome is a raw underlying error that
escaped uncaught (as opposed to a domain exception or a success). -/
def pineconeIsRaw {α : Type} : Except PineconeFailure α → Bool
  | .error (.raw _) => true
  | _ => false

/-- Whether a Supabase operation outcome is a raw underlying error that
escaped uncaught (as opposed to a domain exception or a success). -/
def supabaseIsRaw {α : Type} : Except SupabaseFailure α → Bool
  | .error (.raw _) => true
  | _ => false

/-- A client-event trace leaves no connection open: every successful
`create_client` is matched by at least one `disconnect`. -/
def clientReleased (tr : List SupEvent) : Prop :=
  tr.countP SupEvent.isConnect ≤ tr.countP SupEvent.isDisconnect

/-- A Pinecone configuration with no explicit namespace. -/
def psNone : PineconeSink :=
  { api_key := "key", environment := "env", index := "idx", «namespace» := none }

/-- A Supabase configuration with no explicit collection name. -/
def ssNone : SupabaseSink :=
  { database_connection := "postgresql://db", collection_name := none }

/-- A Pinecone backend on which every call succeeds: upserts acknowledge
every record sent, queries return no matches, the index has no namespaces. -/
def okPineconeBackend : PineconeBackend where
  init := fun _ _ => Except.ok ()
  upsert := fun _ recs _ => Except.ok recs.length
  query := fun _ _ _ _ => Except.ok []
  describe_index_stats := fun _ => Except.ok []

/-- A Pinecone backend whose index stats report 5 vectors under the
namespace `pipeline_p1`. -/
def statsPineconeBackend : PineconeBackend where
  init := fun _ _ => Except.ok ()
  upsert := fun _ recs _ => Except.ok recs.length
  query := fun _ _ _ _ => Except.ok []
  describe_index_stats := fun _ => Except.ok [("pipeline_p1", 5)]

/-- A Pinecone backend whose query call raises. -/
def badQueryPineconeBackend : PineconeBackend where
  init := fun _ _ => Except.ok ()
  upsert := fun _ recs _ => Except.ok recs.length
  query := fun _ _ _ _ => Except.error "namespace not found"
  describe_index_stats := fun _ => Except.ok []

/-- A Pinecone backend that cannot be reached: `pinecone.init` raises. -/
def badInitPineconeBackend : PineconeBackend where
  init := fun _ _ => Except.error "bad api key"
  upsert := fun _ recs _ => Except.ok recs.length
  query := fun _ _ _ _ => Except.ok []
  describe_index_stats := fun _ => Except.ok []

/-- A Supabase backend on which every call succeeds; the collection holds
no rows. -/
def okSupabaseBackend : SupabaseBackend where
  create_client := fun _ => Except.ok ()
  get_or_create_collection := fun _ _ => Except.ok ()
  get_collection := fun _ => Except.ok ()
  upsert := fun _ _ => Except.ok ()
  query := fun _ _ _ => Except.ok []
  count := fun _ => Except.ok 0

/-- A Supabase backend whose `create_client` raises. -/
def badClientBackend : SupabaseBackend where
  create_client := fun _ => Except.error "connection refused"
  get_or_create_collection := fun _ _ => Except.ok ()
  get_collection := fun _ => Except.ok ()
  upsert := fun _ _ => Except.ok ()
  query := fun _ _ _ => Except.ok []
  count := fun _ => Except.ok 0

/-- A Supabase backend whose row-count aggregate raises. -/
def badCountBackend : SupabaseBackend where
  create_client := fun _ => Except.ok ()
  get_or_create_collection := fun _ _ => Except.ok ()
  get_collection := fun _ => Except.ok ()
  upsert := fun _ _ => Except.ok ()
  query := fun _ _ _ => Except.ok []
  count := fun _ => Except.error "count query failed"

/-- A Supabase backend whose `get_collection` raises (absent collection). -/
def badCollectionBackend : SupabaseBackend where
  create_client := fun _ => Except.ok ()
  get_or_create_collection := fun _ _ => Except.ok ()
  get_collection := fun _ => Except.error "collection does not exist"
  upsert := fun _ _ => Except.ok ()
  query := fun _ _ _ => Except.ok []
  count := fun _ => Except.ok 0

/-- A single vector of dimension 1. -/
def oneVector : NeumVector := { id := "a", vector := [0.0], metadata := [] }

/-- Forty vectors of dimension 8, the concrete scenario of the spec. -/
def fortyVectors : List NeumVector :=
  (List.range 40).map fun i =>
    { id := toString i, vector := List.replicate 8 0.0, metadata := [] }

/-! ## Helper lemmas about the batching loop -/

/-- Every upsert call dispatched by the Pinecone store loop carries the
namespace the loop was given. -/
theorem pineconeStoreLoop_trace_ns (bk : PineconeBackend) (index ns : String) :
    ∀ (n : Nat) (vs : List NeumVector), vs.length ≤ n →
      ((pineconeStoreLoop bk index ns vs).2.all fun b => b.2 == ns) = true := by
  intro n
  induction n with
  | zero =>
    intro vs h
    have hvs : vs = [] := by cases vs <;> simp_all
    subst hvs
    simp [pineconeStoreLoop]
  | succ n ih =>
    intro vs h
    cases vs with
    | nil => simp [pineconeStoreLoop]
    | cons v rest =>
      have hlen : ((v :: rest).drop 32).length ≤ n := by
        simp only [List.length_drop, List.length_cons] at *
        omega
      have hrec := ih ((v :: rest).drop 32) hlen
      simp only [List.drop_succ_cons] at hrec
      rw [pineconeStoreLoop]
      cases hup : bk.upsert index (pineconeToUpsert ((v :: rest).take 32)) ns with
      | error e => simp [hup]
      | ok c =>
        simp only [List.all_eq_true, beq_iff_eq, Prod.forall] at hrec
        simp [hup]
        exact hrec

/-- When every upsert is acknowledged, the Pinecone store loop returns the
sum of the per-batch acknowledged counts and dispatches exactly the
`listChunks32` batches, in order. -/
theorem pineconeStoreLoop_ok (bk : PineconeBackend) (index : String)
    (ack : List UpsertRecord → Nat)
    (hup : ∀ recs ns', bk.upsert index recs ns' = Except.ok (ack recs))
    (ns : String) :
    ∀ (n : Nat) (vs : List NeumVector), vs.length ≤ n →
      pineconeStoreLoop bk index ns vs =
        (Except.ok (((listChunks32 vs).map fun b => ack (pineconeToUpsert b)).sum),
         (listChunks32 vs).map fun b => (pineconeToUpsert b, ns)) := by
  intro n
  induction n with
  | zero =>
    intro vs h
    have hvs : vs = [] := by cases vs <;> simp_all
    subst hvs
    simp [pineconeStoreLoop, listChunks32]
  | succ n ih =>
    intro vs h
    cases vs with
    | nil => simp [pineconeStoreLoop, listChunks32]
    | cons v rest =>
      have hlen : ((v :: rest).drop 32).length ≤ n := by
        simp only [List.length_drop, List.length_cons] at *
        omega
      have hrec := ih ((v :: rest).drop 32) hlen
      simp only [List.drop_succ_cons] at hrec
      rw [pineconeStoreLoop, listChunks32]
      simp [hup, hrec]

/-- The chunks of a list concatenate back to the list. -/
theorem listChunks32_flatten {α : Type} :
    ∀ (n : Nat) (vs : List α), vs.length ≤ n → (listChunks32 vs).flatten = vs := by
  intro n
  induction n with
  | zero =>
    intro vs h
    have hvs : vs = [] := by cases vs <;> simp_all
    subst hvs
    simp [listChunks32]
  | succ n ih =>
    intro vs h
    cases vs with
    | nil => simp [listChunks32]
    | cons v rest =>
      have hlen : ((v :: rest).drop 32).length ≤ n := by
        simp only [List.length_drop, List.length_cons] at *
        omega
      have hrec := ih ((v :: rest).drop 32) hlen
      simp only [List.drop_succ_cons] at hrec
      rw [listChunks32]
      simp [hrec, List.take_append_drop]

/-- The chunk lengths are determined by the input length alone. -/
theorem listChunks32_sizes {α : Type} :
    ∀ (n : Nat) (vs : List α), vs.length ≤ n →
      (listChunks32 vs).map List.length = storeBatchSizes vs.length := by
  intro n
  induction n with
  | zero =>
    intro vs h
    have hvs : vs = [] := by cases vs <;> simp_all
    subst hvs
    simp [listChunks32, storeBatchSizes]
  | succ n ih =>
    intro vs h
    cases vs with
    | nil => simp [listChunks32, storeBatchSizes]
    | cons v rest =>
      have hlen : ((v :: rest).drop 32).length ≤ n := by
        simp only [List.length_drop, List.length_cons] at *
        omega
      have hrec := ih ((v :: rest).drop 32) hlen
      simp only [List.drop_succ_cons, List.length_drop] at hrec
      have harg : rest.length + 1 - 32 = rest.length - 31 := by omega
      rw [listChunks32, storeBatchSizes]
      simp [hrec, List.length_take, harg]
      omega

/-! ## Claims -/

/-- Claim C1: in `store`, `search` and `info` of both adapters, when no
explicit namespace/collection name is configured the operation behaves
exactly as if the name `pipeline_{pipeline_id}` had been configured, and
when an explicit name is configured the operation's outcome (result and
dispatched calls) is independent of `pipeline_id`; moreover every upsert
batch the Pinecone `store` dispatches targets the resolved name. -/
theorem namespace_resolution_rule
    (ps : PineconeSink) (pbk : PineconeBackend) (ss : SupabaseSink)
    (sbk : SupabaseBackend) (pid pid' c : String) (vs : List NeumVector)
    (v : List Float) (k : Nat) :
    ((PineconeSink.store { ps with «namespace» := none } pbk pid vs).1
      = (PineconeSink.store { ps with «namespace» := some s!"pipeline_{pid}" } pbk pid vs).1)
    ∧ ((PineconeSink.store { ps with «namespace» := some c } pbk pid vs).1
      = (PineconeSink.store { ps with «namespace» := some c } pbk pid' vs).1)
    ∧ ((PineconeSink.search { ps with «namespace» := none } pbk v k pid).1
      = (PineconeSink.search { ps with «namespace» := some s!"pipeline_{pid}" } pbk v k pid).1)
    ∧ ((PineconeSink.search { ps with «namespace» := some c } pbk v k pid).1
      = (PineconeSink.search { ps with «namespace» := some c } pbk v k pid').1)
    ∧ ((PineconeSink.info { ps with «namespace» := none } pbk pid).1
      = (PineconeSink.info { ps with «namespace» := some s!"pipeline_{pid}" } pbk pid).1)
    ∧ ((PineconeSink.info { ps with «namespace» := some c } pbk pid).1
      = (PineconeSink.info { ps with «namespace» := some c } pbk pid').1)
    ∧ ((SupabaseSink.store { ss with collection_name := none } sbk pid vs).1
      = (SupabaseSink.store { ss with collection_name := some s!"pipeline_{pid}" } sbk pid vs).1)
    ∧ ((SupabaseSink.store { ss with collection_name := some c } sbk pid vs).1
      = (SupabaseSink.store { ss with collection_name := some c } sbk pid' vs).1)
    ∧ ((SupabaseSink.search { ss with collection_name := none } sbk v k pid).1
      = (SupabaseSink.search { ss with collection_name := some s!"pipeline_{pid}" } sbk v k pid).1)
    ∧ ((SupabaseSink.search { ss with collection_name := some c } sbk v k pid).1
      = (SupabaseSink.search { ss with collection_name := some c } sbk v k pid').1)
    ∧ ((SupabaseSink.info { ss with collection_name := none } sbk pid).1
      = (SupabaseSink.info { ss with collection_name := some s!"pipeline_{pid}" } sbk pid).1)
    ∧ ((SupabaseSink.info { ss with collection_name := some c } sbk pid).1
      = (SupabaseSink.info { ss with collection_name := some c } sbk pid').1)
    ∧ (((PineconeSink.store ps pbk pid vs).1.2.all
          fun b => b.2 == resolveName ps.«namespace» pid) = true) := by
  refine ⟨rfl, rfl, rfl, rfl, rfl, rfl, rfl, rfl, rfl, rfl, rfl, rfl, ?_⟩
  cases hns : ps.«namespace» with
  | none =>
    simp only [PineconeSink.store, hns, resolveName]
    cases hinit : pbk.init ps.api_key ps.environment with
    | error e => simp
    | ok u =>
      simpa using pineconeStoreLoop_trace_ns pbk ps.index s!"pipeline_{pid}"
        vs.length vs (le_refl _)
  | some nsv =>
    simp only [PineconeSink.store, hns, resolveName]
    cases hinit : pbk.init ps.api_key ps.environment with
    | error e => simp
    | ok u =>
      simpa using pineconeStoreLoop_trace_ns pbk ps.index nsv
        vs.length vs (le_refl _)

/-- Claim C10: no operation of either adapter mutates the configuration:
the post-call `self` returned by every embedded method equals the record
it was called with (in particular the `pipeline_{pipeline_id}` default is
only ever computed into a local, never written back). -/
theorem config_immutable
    (ps : PineconeSink) (pbk : PineconeBackend) (ss : SupabaseSink)
    (sbk : SupabaseBackend) (pid : String) (vs : List NeumVector)
    (v : List Float) (k : Nat) :
    ((PineconeSink.validation ps pbk).2 = ps)
    ∧ ((PineconeSink.store ps pbk pid vs).2 = ps)
    ∧ ((PineconeSink.search ps pbk v k pid).2 = ps)
    ∧ ((PineconeSink.info ps pbk pid).2 = ps)
    ∧ ((SupabaseSink.validation ss sbk).2 = ss)
    ∧ ((SupabaseSink.store ss sbk pid vs).2 = ss)
    ∧ ((SupabaseSink.search ss sbk v k pid).2 = ss)
    ∧ ((SupabaseSink.info ss sbk pid).2 = ss) :=
  ⟨rfl, rfl, rfl, rfl, rfl, rfl, rfl, rfl⟩

/-- Claim C9: `PineconeSink.store` on an empty vector sequence returns 0
and dispatches no upsert batch (the batching loop runs zero iterations),
raising no error, whenever the connection initialisation inside the `try`
succeeds. -/
theorem empty_store_pinecone
    (ps : PineconeSink) (pbk : PineconeBackend) (pid : String)
    (hinit : pbk.init ps.api_key ps.environment = Except.ok ()) :
    (PineconeSink.store ps pbk pid []).1.1 = Except.ok 0
    ∧ (PineconeSink.store ps pbk pid []).1.2 = [] := by
  cases hns : ps.«namespace» <;>
    simp [PineconeSink.store, hns, hinit, pineconeStoreLoop]

/-- Witness for C9 at a concrete configuration and backend. -/
theorem empty_store_pinecone_witness :
    (PineconeSink.store psNone okPineconeBackend "p1" []).1.1 = Except.ok 0
    ∧ (PineconeSink.store psNone okPineconeBackend "p1" []).1.2 = [] :=
  empty_store_pinecone psNone okPineconeBackend "p1" rfl

/-- Mapping the record construction over chunks and flattening equals
constructing the records of the flattened list. -/
theorem pineconeToUpsert_flatten :
    ∀ L : List (List NeumVector),
      (L.map fun b => pineconeToUpsert b).flatten = pineconeToUpsert L.flatten
  | [] => rfl
  | b :: L => by
    simp [pineconeToUpsert, pineconeToUpsert_flatten L]

/-- Claim C2: when the backing service acknowledges every call, the
Pinecone `store` dispatches sequential batches of at most 32 vectors in
input order — the dispatched records concatenate back to the full input
and the batch sizes are `storeBatchSizes` of the input length — and
returns the sum of the per-batch acknowledged counts; the Supabase `store`
on a non-empty sequence issues exactly one upsert call and returns `N`. -/
theorem store_count_batching
    (ps : PineconeSink) (pbk : PineconeBackend) (pid : String)
    (vs : List NeumVector) (ack : List UpsertRecord → Nat)
    (ss : SupabaseSink) (sbk : SupabaseBackend) (pid₂ : String)
    (vs₂ : List NeumVector)
    (hinit : pbk.init ps.api_key ps.environment = Except.ok ())
    (hup : ∀ recs ns', pbk.upsert ps.index recs ns' = Except.ok (ack recs))
    (hcc : sbk.create_client ss.database_connection = Except.ok ())
    (hgoc : ∀ nm dim, sbk.get_or_create_collection nm dim = Except.ok ())
    (hsup : ∀ nm recs, sbk.upsert nm recs = Except.ok ())
    (hne : vs₂ ≠ []) :
    ((PineconeSink.store ps pbk pid vs).1.1
      = Except.ok (((PineconeSink.store ps pbk pid vs).1.2.map fun b => ack b.1).sum))
    ∧ (((PineconeSink.store ps pbk pid vs).1.2.map fun b => b.1).flatten
      = pineconeToUpsert vs)
    ∧ (((PineconeSink.store ps pbk pid vs).1.2.map fun b => b.1.length)
      = storeBatchSizes vs.length)
    ∧ ((SupabaseSink.store ss sbk pid₂ vs₂).1.1 = Except.ok vs₂.length)
    ∧ ((SupabaseSink.store ss sbk pid₂ vs₂).1.2.countP SupEvent.isUpsertCall = 1) := by
  have hmain : ∀ ns : String,
      pineconeStoreLoop pbk ps.index ns vs =
        (Except.ok (((listChunks32 vs).map fun b => ack (pineconeToUpsert b)).sum),
         (listChunks32 vs).map fun b => (pineconeToUpsert b, ns)) :=
    fun ns => pineconeStoreLoop_ok pbk ps.index ack hup ns vs.length vs (le_refl _)
  have hflat : ∀ ns' : String,
      ((((listChunks32 vs).map fun b => (pineconeToUpsert b, ns')).map
        fun b => b.1).flatten) = pineconeToUpsert vs := by
    intro ns'
    simp only [List.map_map, Function.comp_def]
    rw [pineconeToUpsert_flatten (listChunks32 vs),
      listChunks32_flatten vs.length vs (le_refl _)]
  have hsizes : ∀ ns' : String,
      (((listChunks32 vs).map fun b => (pineconeToUpsert b, ns')).map
        fun b => b.1.length) = storeBatchSizes vs.length := by
    intro ns'
    simp only [List.map_map, Function.comp_def]
    simpa [pineconeToUpsert] using listChunks32_sizes vs.length vs (le_refl _)
  have hpine :
      ((PineconeSink.store ps pbk pid vs).1.1
        = Except.ok (((PineconeSink.store ps pbk pid vs).1.2.map fun b => ack b.1).sum))
      ∧ (((PineconeSink.store ps pbk pid vs).1.2.map fun b => b.1).flatten
        = pineconeToUpsert vs)
      ∧ (((PineconeSink.store ps pbk pid vs).1.2.map fun b => b.1.length)
        = storeBatchSizes vs.length) := by
    cases hns : ps.«namespace» with
    | none =>
      simp only [PineconeSink.store, hns, hinit, hmain]
      exact ⟨by simp [List.map_map, Function.comp_def], hflat _, hsizes _⟩
    | some nsv =>
      simp only [PineconeSink.store, hns, hinit, hmain]
      exact ⟨by simp [List.map_map, Function.comp_def], hflat _, hsizes _⟩
  refine ⟨hpine.1, hpine.2.1, hpine.2.2, ?_, ?_⟩ <;>
  · cases vs₂ with
    | nil => exact absurd rfl hne
    | cons v₂ r₂ =>
      simp [SupabaseSink.store, hcc, hgoc, hsup, List.countP_cons,
        SupEvent.isUpsertCall]

/-- Witness for C2: 40 vectors of dimension 8 stored through the Pinecone
adapter are dispatched as two batches of sizes 32 and 8 and counted as 40;
one vector stored through the Supabase adapter is one upsert call and
count 1. -/
theorem store_count_batching_witness :
    ((PineconeSink.store psNone okPineconeBackend "p1" fortyVectors).1.1
      = Except.ok 40)
    ∧ (((PineconeSink.store psNone okPineconeBackend "p1" fortyVectors).1.2.map
        fun b => b.1.length) = [32, 8])
    ∧ ((SupabaseSink.store ssNone okSupabaseBackend "p1" [oneVector]).1.1
      = Except.ok 1)
    ∧ ((SupabaseSink.store ssNone okSupabaseBackend "p1" [oneVector]).1.2.countP
        SupEvent.isUpsertCall = 1) := by
  have h := store_count_batching psNone okPineconeBackend "p1" fortyVectors
      (fun recs => recs.length) ssNone okSupabaseBackend "p1" [oneVector]
      rfl (fun _ _ => rfl) rfl (fun _ _ => rfl) (fun _ _ => rfl) (by simp)
  have hlen : fortyVectors.length = 40 := by simp [fortyVectors]
  have hsz : ((PineconeSink.store psNone okPineconeBackend "p1" fortyVectors).1.2.map
      fun b => b.1.length) = [32, 8] := by
    rw [h.2.2.1, hlen]
    simp [storeBatchSizes]
  refine ⟨?_, hsz, h.2.2.2.1, h.2.2.2.2⟩
  rw [h.1, hsz]
  rfl

/-- Claim C3 counterexample: `info` has outcomes other than a count or an
IndexInfoException.  With a reachable backend whose index stats hold no
namespaces, the Pinecone `info` falls off the end of its `try` and returns
no value (Python `None`); with a backend whose row-count aggregate raises,
the Supabase `info` propagates the raw error, because the count query runs
outside the `try`. -/
theorem info_outcomes_cex :
    ((PineconeSink.info psNone okPineconeBackend "p1").1 = Except.ok none)
    ∧ ((SupabaseSink.info ssNone badCountBackend "p1").1.1
      = Except.error (.raw "count query failed")) :=
  ⟨rfl, rfl⟩

/-- Claim C3 amended: when the backend is reachable, the Pinecone `info`
returns the count recorded in the index stats under the resolved namespace
when present and no value (Python `None`) when absent, and raises an
IndexInfoException kind when the backend errors; the Supabase `info`
returns the backend's row count when the collection resolves and the count
query succeeds, raises an IndexInfoException kind when the collection
cannot be resolved, and propagates the raw error of a failing count
query. -/
theorem info_outcomes_amended
    (ps : PineconeSink) (pbk : PineconeBackend) (pid : String)
    (ss : SupabaseSink) (sbk : SupabaseBackend) (pid₂ : String) :
    (∀ stats, pbk.init ps.api_key ps.environment = Except.ok () →
      pbk.describe_index_stats ps.index = Except.ok stats →
      (PineconeSink.info ps pbk pid).1
        = Except.ok ((stats.lookup (resolveName ps.«namespace» pid)).map
            fun c => { number_vectors_stored := c }))
    ∧ (∀ e, pbk.init ps.api_key ps.environment = Except.error e →
      ∃ msg, (PineconeSink.info ps pbk pid).1
        = Except.error (.exc (.indexInfoException msg)))
    ∧ (∀ e, pbk.init ps.api_key ps.environment = Except.ok () →
      pbk.describe_index_stats ps.index = Except.error e →
      ∃ msg, (PineconeSink.info ps pbk pid).1
        = Except.error (.exc (.indexInfoException msg)))
    ∧ (∀ m, sbk.create_client ss.database_connection = Except.ok () →
      sbk.get_collection (resolveName ss.collection_name pid₂) = Except.ok () →
      sbk.count (resolveName ss.collection_name pid₂) = Except.ok m →
      (SupabaseSink.info ss sbk pid₂).1.1
        = Except.ok { number_vectors_stored := m })
    ∧ (∀ e, sbk.create_client ss.database_connection = Except.ok () →
      sbk.get_collection (resolveName ss.collection_name pid₂) = Except.error e →
      ∃ msg, (SupabaseSink.info ss sbk pid₂).1.1
        = Except.error (.exc (.indexInfoException msg)))
    ∧ (∀ e, sbk.create_client ss.database_connection = Except.ok () →
      sbk.get_collection (resolveName ss.collection_name pid₂) = Except.ok () →
      sbk.count (resolveName ss.collection_name pid₂) = Except.error e →
      (SupabaseSink.info ss sbk pid₂).1.1 = Except.error (.raw e)) := by
  refine ⟨?_, ?_, ?_, ?_, ?_, ?_⟩
  · intro stats hinit hstats
    cases hns : ps.«namespace» with
    | none =>
      simp only [PineconeSink.info, hns, hinit, hstats, resolveName, bind, Except.bind]
      cases hlk : stats.lookup s!"pipeline_{pid}" <;> simp [hlk]
    | some nsv =>
      simp only [PineconeSink.info, hns, hinit, hstats, resolveName, bind, Except.bind]
      cases hlk : stats.lookup nsv <;> simp [hlk]
  · intro e hinit
    cases hns : ps.«namespace» with
    | none =>
      have h : (PineconeSink.info ps pbk pid).1
          = Except.error (.exc (.indexInfoException
            s!"Failed to get info for pinecone. Exception - {e}")) := by
        simp [PineconeSink.info, hns, hinit, bind, Except.bind]
      exact ⟨_, h⟩
    | some nsv =>
      have h : (PineconeSink.info ps pbk pid).1
          = Except.error (.exc (.indexInfoException
            s!"Failed to get info for pinecone. Exception - {e}")) := by
        simp [PineconeSink.info, hns, hinit, bind, Except.bind]
      exact ⟨_, h⟩
  · intro e hinit hstats
    cases hns : ps.«namespace» with
    | none =>
      have h : (PineconeSink.info ps pbk pid).1
          = Except.error (.exc (.indexInfoException
            s!"Failed to get info for pinecone. Exception - {e}")) := by
        simp [PineconeSink.info, hns, hinit, hstats, bind, Except.bind]
      exact ⟨_, h⟩
    | some nsv =>
      have h : (PineconeSink.info ps pbk pid).1
          = Except.error (.exc (.indexInfoException
            s!"Failed to get info for pinecone. Exception - {e}")) := by
        simp [PineconeSink.info, hns, hinit, hstats, bind, Except.bind]
      exact ⟨_, h⟩
  · intro m hcc hgc hcount
    cases hns : ss.collection_name with
    | none =>
      simp only [resolveName, hns] at hgc hcount
      simp [SupabaseSink.info, hns, hcc, hgc, hcount]
    | some nsv =>
      simp only [resolveName, hns] at hgc hcount
      simp [SupabaseSink.info, hns, hcc, hgc, hcount]
  · intro e hcc hgc
    cases hns : ss.collection_name with
    | none =>
      simp only [resolveName, hns] at hgc
      simp only [SupabaseSink.info, hns, hcc, hgc]
      exact ⟨_, rfl⟩
    | some nsv =>
      simp only [resolveName, hns] at hgc
      simp only [SupabaseSink.info, hns, hcc, hgc]
      exact ⟨_, rfl⟩
  · intro e hcc hgc hcount
    cases hns : ss.collection_name with
    | none =>
      simp only [resolveName, hns] at hgc hcount
      simp [SupabaseSink.info, hns, hcc, hgc, hcount]
    | some nsv =>
      simp only [resolveName, hns] at hgc hcount
      simp [SupabaseSink.info, hns, hcc, hgc, hcount]

/-- Witness for the amended C3 at concrete backends: stats holding 5
vectors under `pipeline_p1` yield count 5; an empty collection yields
count 0. -/
theorem info_outcomes_amended_witness :
    ((PineconeSink.info psNone statsPineconeBackend "p1").1
      = Except.ok (some { number_vectors_stored := 5 }))
    ∧ ((SupabaseSink.info ssNone okSupabaseBackend "p1").1.1
      = Except.ok { number_vectors_stored := 0 }) := by
  have h := info_outcomes_amended psNone statsPineconeBackend "p1"
    ssNone okSupabaseBackend "p1"
  exact ⟨(h.1 [("pipeline_p1", 5)] rfl rfl).trans (by rfl),
    h.2.2.2.1 0 rfl rfl rfl⟩

/-- Claim C4 counterexample: a failure of the underlying client library is
not always re-raised as a domain exception — `vecs.create_client` in
`SupabaseSink.store` runs before the `try`, so its error reaches the
caller raw. -/
theorem error_wrapping_cex :
    (SupabaseSink.store ssNone badClientBackend "p1" [oneVector]).1.1
      = Except.error (.raw "connection refused") :=
  rfl

/-- Claim C4 amended: every failure raised inside an operation's `try`
block is re-raised as the corresponding domain exception kind — in
particular no Pinecone operation ever surfaces a raw error, and neither
does the Supabase `validation`; but the Supabase `store`, `search` and
`info` propagate a raw `create_client` failure (it happens before the
`try`), and `info` also propagates a raw failure of the row-count query
(it happens after the `try`). -/
theorem error_wrapping_amended
    (ps : PineconeSink) (pbk : PineconeBackend) (ss : SupabaseSink)
    (sbk : SupabaseBackend) (pid : String) (vs : List NeumVector)
    (v : List Float) (k : Nat) :
    (pineconeIsRaw (PineconeSink.validation ps pbk).1 = false)
    ∧ (pineconeIsRaw (PineconeSink.store ps pbk pid vs).1.1 = false)
    ∧ (pineconeIsRaw (PineconeSink.search ps pbk v k pid).1 = false)
    ∧ (pineconeIsRaw (PineconeSink.info ps pbk pid).1 = false)
    ∧ (supabaseIsRaw (SupabaseSink.validation ss sbk).1.1 = false)
    ∧ (sbk.create_client ss.database_connection = Except.ok () →
        supabaseIsRaw (SupabaseSink.store ss sbk pid vs).1.1 = false)
    ∧ (sbk.create_client ss.database_connection = Except.ok () →
        supabaseIsRaw (SupabaseSink.search ss sbk v k pid).1.1 = false)
    ∧ (∀ m, sbk.create_client ss.database_connection = Except.ok () →
        sbk.count (resolveName ss.collection_name pid) = Except.ok m →
        supabaseIsRaw (SupabaseSink.info ss sbk pid).1.1 = false) := by
  refine ⟨?_, ?_, ?_, ?_, ?_, ?_, ?_, ?_⟩
  · simp only [PineconeSink.validation]
    repeat' split
    all_goals simp [pineconeIsRaw]
  · simp only [PineconeSink.store]
    repeat' split
    all_goals simp [pineconeIsRaw]
  · simp only [PineconeSink.search]
    repeat' split
    all_goals simp [pineconeIsRaw]
  · simp only [PineconeSink.info]
    repeat' split
    all_goals simp [pineconeIsRaw]
  · simp only [SupabaseSink.validation]
    repeat' split
    all_goals simp [supabaseIsRaw]
  · intro hcc
    simp only [SupabaseSink.store, hcc]
    repeat' split
    all_goals simp [supabaseIsRaw]
  · intro hcc
    simp only [SupabaseSink.search, hcc]
    repeat' split
    all_goals simp [supabaseIsRaw]
  · intro m hcc hcount
    cases hns : ss.collection_name with
    | none =>
      simp only [resolveName, hns] at hcount
      simp only [SupabaseSink.info, hns, hcc]
      cases hgc : sbk.get_collection s!"pipeline_{pid}" with
      | error e => simp [supabaseIsRaw]
      | ok u => simp [hcount, supabaseIsRaw]
    | some nsv =>
      simp only [resolveName, hns] at hcount
      simp only [SupabaseSink.info, hns, hcc]
      cases hgc : sbk.get_collection nsv with
      | error e => simp [supabaseIsRaw]
      | ok u => simp [hcount, supabaseIsRaw]

/-- Witness for the amended C4 at concrete all-acknowledging backends. -/
theorem error_wrapping_amended_witness :
    (pineconeIsRaw (PineconeSink.validation psNone okPineconeBackend).1 = false)
    ∧ (supabaseIsRaw (SupabaseSink.store ssNone okSupabaseBackend "p1"
        [oneVector]).1.1 = false)
    ∧ (supabaseIsRaw (SupabaseSink.info ssNone okSupabaseBackend "p1").1.1
        = false) := by
  have h := error_wrapping_amended psNone okPineconeBackend ssNone
    okSupabaseBackend "p1" [oneVector] [0.0] 5
  exact ⟨h.1, h.2.2.2.2.2.1 rfl, h.2.2.2.2.2.2.2 0 rfl rfl⟩

/-- Claim C5 counterexample: a backend error during `SupabaseSink.search`
is not always wrapped into a QueryException — a failing
`vecs.create_client` (which runs before any `try`) reaches the caller
raw. -/
theorem search_query_exception_cex :
    (SupabaseSink.search ssNone badClientBackend [0.0] 5 "p1").1.1
      = Except.error (.raw "connection refused") :=
  rfl

/-- Claim C5 amended: search raises a QueryException kind whenever the
query-path backend calls error — for Pinecone, a failing `init` or a
failing query; for Supabase, a failing `get_collection` (absent
collection) or a failing query once the client is created — but the
Supabase client construction itself failing propagates raw. -/
theorem search_query_exception_amended
    (ps : PineconeSink) (pbk : PineconeBackend) (ss : SupabaseSink)
    (sbk : SupabaseBackend) (v : List Float) (k : Nat) (pid : String) :
    (∀ e, pbk.init ps.api_key ps.environment = Except.error e →
      ∃ msg, (PineconeSink.search ps pbk v k pid).1
        = Except.error (.exc (.queryException msg)))
    ∧ (∀ e, pbk.init ps.api_key ps.environment = Except.ok () →
      pbk.query ps.index v k (resolveName ps.«namespace» pid) = Except.error e →
      ∃ msg, (PineconeSink.search ps pbk v k pid).1
        = Except.error (.exc (.queryException msg)))
    ∧ (∀ e, sbk.create_client ss.database_connection = Except.ok () →
      sbk.get_collection (resolveName ss.collection_name pid) = Except.error e →
      ∃ msg, (SupabaseSink.search ss sbk v k pid).1.1
        = Except.error (.exc (.queryException msg)))
    ∧ (∀ e, sbk.create_client ss.database_connection = Except.ok () →
      sbk.get_collection (resolveName ss.collection_name pid) = Except.ok () →
      sbk.query (resolveName ss.collection_name pid) v k = Except.error e →
      ∃ msg, (SupabaseSink.search ss sbk v k pid).1.1
        = Except.error (.exc (.queryException msg))) := by
  refine ⟨?_, ?_, ?_, ?_⟩
  · intro e hinit
    cases hns : ps.«namespace» with
    | none =>
      simp only [PineconeSink.search, hns, hinit, bind, Except.bind]
      exact ⟨_, rfl⟩
    | some nsv =>
      simp only [PineconeSink.search, hns, hinit, bind, Except.bind]
      exact ⟨_, rfl⟩
  · intro e hinit hq
    cases hns : ps.«namespace» with
    | none =>
      simp only [resolveName, hns] at hq
      simp only [PineconeSink.search, hns, hinit, hq, bind, Except.bind]
      exact ⟨_, rfl⟩
    | some nsv =>
      simp only [resolveName, hns] at hq
      simp only [PineconeSink.search, hns, hinit, hq, bind, Except.bind]
      exact ⟨_, rfl⟩
  · intro e hcc hgc
    cases hns : ss.collection_name with
    | none =>
      simp only [resolveName, hns] at hgc
      simp only [SupabaseSink.search, hns, hcc, hgc]
      exact ⟨_, rfl⟩
    | some nsv =>
      simp only [resolveName, hns] at hgc
      simp only [SupabaseSink.search, hns, hcc, hgc]
      exact ⟨_, rfl⟩
  · intro e hcc hgc hq
    cases hns : ss.collection_name with
    | none =>
      simp only [resolveName, hns] at hgc hq
      simp only [SupabaseSink.search, hns, hcc, hgc, hq]
      exact ⟨_, rfl⟩
    | some nsv =>
      simp only [resolveName, hns] at hgc hq
      simp only [SupabaseSink.search, hns, hcc, hgc, hq]
      exact ⟨_, rfl⟩

/-- Witness for the amended C5: a failing Pinecone query and an absent
Supabase collection both surface as QueryException kinds. -/
theorem search_query_exception_amended_witness :
    (∃ msg, (PineconeSink.search psNone badQueryPineconeBackend [0.0] 5 "p1").1
      = Except.error (.exc (.queryException msg)))
    ∧ (∃ msg, (SupabaseSink.search ssNone badCollectionBackend [0.0] 5 "p1").1.1
      = Except.error (.exc (.queryException msg))) := by
  have h1 := search_query_exception_amended psNone badQueryPineconeBackend
    ssNone badCollectionBackend [0.0] 5 "p1"
  exact ⟨h1.2.1 "namespace not found" rfl rfl,
    h1.2.2.1 "collection does not exist" rfl rfl⟩

/-- Claim C6: `validation` on either adapter returns `True` when the
connectivity check succeeds and raises a ConnectionException kind when any
backend call of the check fails; it has no other outcome (never `False`,
never a raw error). -/
theorem validate_outcomes
    (ps : PineconeSink) (pbk : PineconeBackend) (ss : SupabaseSink)
    (sbk : SupabaseBackend) :
    ((PineconeSink.validation ps pbk).1 = Except.ok true
      ∨ ∃ msg, (PineconeSink.validation ps pbk).1
          = Except.error (.exc (.connectionException msg)))
    ∧ (∀ stats, pbk.init ps.api_key ps.environment = Except.ok () →
        pbk.describe_index_stats ps.index = Except.ok stats →
        (PineconeSink.validation ps pbk).1 = Except.ok true)
    ∧ (∀ e, pbk.init ps.api_key ps.environment = Except.error e →
        ∃ msg, (PineconeSink.validation ps pbk).1
          = Except.error (.exc (.connectionException msg)))
    ∧ (∀ e, pbk.init ps.api_key ps.environment = Except.ok () →
        pbk.describe_index_stats ps.index = Except.error e →
        ∃ msg, (PineconeSink.validation ps pbk).1
          = Except.error (.exc (.connectionException msg)))
    ∧ ((SupabaseSink.validation ss sbk).1.1 = Except.ok true
      ∨ ∃ msg, (SupabaseSink.validation ss sbk).1.1
          = Except.error (.exc (.connectionException msg)))
    ∧ (sbk.create_client ss.database_connection = Except.ok () →
        (SupabaseSink.validation ss sbk).1.1 = Except.ok true)
    ∧ (∀ e, sbk.create_client ss.database_connection = Except.error e →
        ∃ msg, (SupabaseSink.validation ss sbk).1.1
          = Except.error (.exc (.connectionException msg))) := by
  refine ⟨?_, ?_, ?_, ?_, ?_, ?_, ?_⟩
  · cases h1 : pbk.init ps.api_key ps.environment with
    | error e =>
      right
      simp only [PineconeSink.validation, h1, bind, Except.bind]
      exact ⟨_, rfl⟩
    | ok u =>
      cases h2 : pbk.describe_index_stats ps.index with
      | error e =>
        right
        simp only [PineconeSink.validation, h1, h2, bind, Except.bind]
        exact ⟨_, rfl⟩
      | ok s =>
        left
        simp [PineconeSink.validation, h1, h2, bind, Except.bind, pure, Except.pure]
  · intro stats h1 h2
    simp [PineconeSink.validation, h1, h2, bind, Except.bind, pure, Except.pure]
  · intro e h1
    simp only [PineconeSink.validation, h1, bind, Except.bind]
    exact ⟨_, rfl⟩
  · intro e h1 h2
    simp only [PineconeSink.validation, h1, h2, bind, Except.bind]
    exact ⟨_, rfl⟩
  · cases h1 : sbk.create_client ss.database_connection with
    | error e =>
      right
      simp only [SupabaseSink.validation, h1]
      exact ⟨_, rfl⟩
    | ok u =>
      left
      simp [SupabaseSink.validation, h1]
  · intro h1
    simp [SupabaseSink.validation, h1]
  · intro e h1
    simp only [SupabaseSink.validation, h1]
    exact ⟨_, rfl⟩

/-- Witness for C6: reachable backends validate to `True`; a bad API key
and a refused connection both yield ConnectionException kinds. -/
theorem validate_outcomes_witness :
    ((PineconeSink.validation psNone okPineconeBackend).1 = Except.ok true)
    ∧ ((SupabaseSink.validation ssNone okSupabaseBackend).1.1 = Except.ok true)
    ∧ (∃ msg, (PineconeSink.validation psNone badInitPineconeBackend).1
        = Except.error (.exc (.connectionException msg)))
    ∧ (∃ msg, (SupabaseSink.validation ssNone badClientBackend).1.1
        = Except.error (.exc (.connectionException msg))) := by
  have h1 := validate_outcomes psNone okPineconeBackend ssNone okSupabaseBackend
  have h2 := validate_outcomes psNone badInitPineconeBackend ssNone badClientBackend
  exact ⟨h1.2.1 [] rfl rfl, h1.2.2.2.2.2.1 rfl,
    h2.2.2.1 "bad api key" rfl, h2.2.2.2.2.2.2 "connection refused" rfl⟩

/-- Claim C7 counterexample: storing an empty sequence through the
Supabase adapter does not surface the index-out-of-range failure raw — the
`IndexError` raised by `vectors_to_store[0]` inside the `try` is caught by
the blanket `except Exception` and re-raised as a SupabaseInsertionException
domain error. -/
theorem empty_store_cex :
    ((SupabaseSink.store ssNone okSupabaseBackend "p1" []).1.1
      = Except.error (.exc (.insertionException
          "Supabase storing failed. Exception list index out of range")))
    ∧ (supabaseIsRaw (SupabaseSink.store ssNone okSupabaseBackend "p1" []).1.1
        = false) :=
  ⟨rfl, rfl⟩

/-- Claim C7 amended: storing an empty sequence through the Supabase
adapter raises a SupabaseInsertionException whose message embeds the
underlying index-out-of-range error; the raw IndexError never reaches the
caller, and the client is still disconnected. -/
theorem empty_store_supabase_amended
    (ss : SupabaseSink) (sbk : SupabaseBackend) (pid : String)
    (hcc : sbk.create_client ss.database_connection = Except.ok ()) :
    ((SupabaseSink.store ss sbk pid []).1.1
      = Except.error (.exc (.insertionException
          "Supabase storing failed. Exception list index out of range")))
    ∧ ((SupabaseSink.store ss sbk pid []).1.2 = [.connect, .disconnect]) := by
  cases hns : ss.collection_name <;> simp [SupabaseSink.store, hns, hcc]

/-- Witness for the amended C7 at a concrete configuration and backend. -/
theorem empty_store_supabase_amended_witness :
    ((SupabaseSink.store ssNone okSupabaseBackend "p1" []).1.1
      = Except.error (.exc (.insertionException
          "Supabase storing failed. Exception list index out of range")))
    ∧ ((SupabaseSink.store ssNone okSupabaseBackend "p1" []).1.2
      = [.connect, .disconnect]) :=
  empty_store_supabase_amended ssNone okSupabaseBackend "p1" rfl

/-- Claim C8 counterexample: `SupabaseSink.validation` opens a client
connection and returns without ever disconnecting it — the connection is
left open on the success path. -/
theorem disconnect_cex :
    ((SupabaseSink.validation ssNone okSupabaseBackend).1.2.countP
        SupEvent.isConnect = 1)
    ∧ ((SupabaseSink.validation ssNone okSupabaseBackend).1.2.countP
        SupEvent.isDisconnect = 0) :=
  ⟨rfl, rfl⟩

/-- Claim C8 amended: `store`, `search` and `info` of the Supabase adapter
disconnect the client they open on every exit path (success or failure),
but `validation` never issues a disconnect for the client it opens. -/
theorem disconnect_amended
    (ss : SupabaseSink) (sbk : SupabaseBackend) (pid : String)
    (vs : List NeumVector) (v : List Float) (k : Nat) :
    clientReleased (SupabaseSink.store ss sbk pid vs).1.2
    ∧ clientReleased (SupabaseSink.search ss sbk v k pid).1.2
    ∧ clientReleased (SupabaseSink.info ss sbk pid).1.2
    ∧ ((SupabaseSink.validation ss sbk).1.2.countP SupEvent.isDisconnect = 0) := by
  refine ⟨?_, ?_, ?_, ?_⟩ <;>
  · simp only [SupabaseSink.store, SupabaseSink.search, SupabaseSink.info,
      SupabaseSink.validation]
    repeat' split
    all_goals
      simp [clientReleased, List.countP_cons, SupEvent.isConnect,
        SupEvent.isDisconnect]
